import Mathlib

/-!
Verification of the repository's three components against its specification:
the Python 3.10 bytecode stack-effect table (`python_ir_data.py`), the
forward/backward split and host-autograd bridge (`torch_autograd.py`), and
the nanoGPT benchmark harness (`nanogpt_training_bench.py`).

Shallow embedding conventions: Python ints are `Int`, Python `x & y` is
`Int.land` and `x >> n` is `>>>` (both two's complement, matching Python),
a Python `raise` is `Option.none` / `Except.error`, and Python dicts keyed by
strings are association lists.
-/

namespace Spec2Proof

/-! ### Bytecode stack-effect table (src/thunder/core/script/python_ir_data.py) -/

/-- The fixed per-opcode (pop, push) table `fixed_stack_effects_detail`,
transcribed entry by entry from the source dict. -/
def fixed_stack_effects_detail : List (String × (Int × Int)) := [
  ("NOP", (0, 0)),
  ("EXTENDED_ARG", (0, 0)),
  ("POP_TOP", (1, 0)),
  ("ROT_TWO", (2, 2)),
  ("ROT_THREE", (3, 3)),
  ("ROT_FOUR", (4, 4)),
  ("DUP_TOP", (1, 2)),
  ("DUP_TOP_TWO", (2, 4)),
  ("UNARY_POSITIVE", (1, 1)),
  ("UNARY_NEGATIVE", (1, 1)),
  ("UNARY_NOT", (1, 1)),
  ("UNARY_INVERT", (1, 1)),
  ("SET_ADD", (2, 1)),
  ("LIST_APPEND", (2, 1)),
  ("MAP_ADD", (3, 1)),
  ("BINARY_POWER", (2, 1)),
  ("BINARY_MULTIPLY", (2, 1)),
  ("BINARY_MATRIX_MULTIPLY", (2, 1)),
  ("BINARY_MODULO", (2, 1)),
  ("BINARY_ADD", (2, 1)),
  ("BINARY_SUBTRACT", (2, 1)),
  ("BINARY_SUBSCR", (2, 1)),
  ("BINARY_FLOOR_DIVIDE", (2, 1)),
  ("BINARY_TRUE_DIVIDE", (2, 1)),
  ("INPLACE_FLOOR_DIVIDE", (2, 1)),
  ("INPLACE_TRUE_DIVIDE", (2, 1)),
  ("INPLACE_ADD", (2, 1)),
  ("INPLACE_SUBTRACT", (2, 1)),
  ("INPLACE_MULTIPLY", (2, 1)),
  ("INPLACE_MATRIX_MULTIPLY", (2, 1)),
  ("INPLACE_MODULO", (2, 1)),
  ("BINARY_LSHIFT", (2, 1)),
  ("BINARY_RSHIFT", (2, 1)),
  ("BINARY_AND", (2, 1)),
  ("BINARY_XOR", (2, 1)),
  ("BINARY_OR", (2, 1)),
  ("INPLACE_POWER", (2, 1)),
  ("INPLACE_LSHIFT", (2, 1)),
  ("INPLACE_RSHIFT", (2, 1)),
  ("INPLACE_AND", (2, 1)),
  ("INPLACE_XOR", (2, 1)),
  ("INPLACE_OR", (2, 1)),
  ("STORE_SUBSCR", (3, 0)),
  ("DELETE_SUBSCR", (2, 0)),
  ("GET_ITER", (1, 1)),
  ("PRINT_EXPR", (1, 0)),
  ("LOAD_BUILD_CLASS", (0, 1)),
  ("RETURN_VALUE", (1, 0)),
  ("IMPORT_STAR", (1, 0)),
  ("SETUP_ANNOTATIONS", (0, 0)),
  ("YIELD_VALUE", (1, 1)),
  ("YIELD_FROM", (2, 1)),
  ("POP_BLOCK", (0, 0)),
  ("POP_EXCEPT", (3, 0)),
  ("STORE_NAME", (1, 0)),
  ("DELETE_NAME", (0, 0)),
  ("STORE_ATTR", (2, 0)),
  ("DELETE_ATTR", (1, 0)),
  ("STORE_GLOBAL", (1, 0)),
  ("DELETE_GLOBAL", (0, 0)),
  ("LOAD_CONST", (0, 1)),
  ("LOAD_NAME", (0, 1)),
  ("LOAD_ATTR", (1, 1)),
  ("COMPARE_OP", (2, 1)),
  ("IS_OP", (2, 1)),
  ("CONTAINS_OP", (2, 1)),
  ("JUMP_IF_NOT_EXC_MATCH", (2, 0)),
  ("IMPORT_NAME", (2, 1)),
  ("IMPORT_FROM", (1, 2)),
  ("JUMP_FORWARD", (0, 0)),
  ("JUMP_ABSOLUTE", (0, 0)),
  ("POP_JUMP_IF_FALSE", (1, 0)),
  ("POP_JUMP_IF_TRUE", (1, 0)),
  ("LOAD_GLOBAL", (0, 1)),
  ("RERAISE", (3, 0)),
  ("WITH_EXCEPT_START", (7, 8)),
  ("LOAD_FAST", (0, 1)),
  ("STORE_FAST", (1, 0)),
  ("DELETE_FAST", (0, 0)),
  ("LOAD_CLOSURE", (0, 1)),
  ("LOAD_DEREF", (0, 1)),
  ("LOAD_CLASSDEREF", (0, 1)),
  ("STORE_DEREF", (1, 0)),
  ("DELETE_DEREF", (0, 0)),
  ("GET_AWAITABLE", (1, 1)),
  ("BEFORE_ASYNC_WITH", (1, 2)),
  ("GET_AITER", (1, 1)),
  ("GET_ANEXT", (1, 2)),
  ("GET_YIELD_FROM_ITER", (1, 1)),
  ("END_ASYNC_FOR", (7, 0)),
  ("LOAD_METHOD", (1, 2)),
  ("LOAD_ASSERTION_ERROR", (0, 1)),
  ("LIST_TO_TUPLE", (1, 1)),
  ("GEN_START", (1, 0)),
  ("LIST_EXTEND", (2, 1)),
  ("SET_UPDATE", (2, 1)),
  ("DICT_MERGE", (2, 1)),
  ("DICT_UPDATE", (2, 1)),
  ("COPY_DICT_WITHOUT_KEYS", (2, 2)),
  ("MATCH_CLASS", (3, 2)),
  ("GET_LEN", (1, 2)),
  ("MATCH_MAPPING", (1, 2)),
  ("MATCH_SEQUENCE", (1, 2)),
  ("MATCH_KEYS", (2, 4))]

/-- The operand- and branch-dependent elif chain of `stack_effect_detail`,
in source order; the final `raise ValueError` is modelled as `none`. -/
def computed_stack_effect (opname : String) (oparg : Int) (jump : Bool) :
    Option (Int × Int) :=
    if opname = "ROT_N" then some (oparg, oparg)
    else if opname = "BUILD_TUPLE" ∨ opname = "BUILD_LIST" ∨
        opname = "BUILD_SET" ∨ opname = "BUILD_STRING" then some (oparg, 1)
    else if opname = "BUILD_MAP" then some (2 * oparg, 1)
    else if opname = "BUILD_CONST_KEY_MAP" then some (oparg + 1, 1)
    else if opname = "JUMP_IF_TRUE_OR_POP" ∨ opname = "JUMP_IF_FALSE_OR_POP" then
      if jump then some (1, 1) else some (1, 0)
    else if opname = "SETUP_FINALLY" then
      if jump then some (0, 6) else some (0, 0)
    else if opname = "RAISE_VARARGS" then some (oparg, 0)
    else if opname = "CALL_FUNCTION" then some (oparg + 1, 1)
    else if opname = "CALL_METHOD" then some (oparg + 2, 1)
    else if opname = "CALL_FUNCTION_KW" then some (oparg + 2, 1)
    else if opname = "CALL_FUNCTION_EX" then
      some (2 + (if Int.land oparg 1 ≠ 0 then 1 else 0), 1)
    else if opname = "MAKE_FUNCTION" then
      some (2 + (if Int.land oparg 1 ≠ 0 then 1 else 0) +
        (if Int.land oparg 2 ≠ 0 then 1 else 0) +
        (if Int.land oparg 4 ≠ 0 then 1 else 0) +
        (if Int.land oparg 8 ≠ 0 then 1 else 0), 1)
    else if opname = "BUILD_SLICE" then some (oparg, 1)
    else if opname = "SETUP_ASYNC_WITH" then
      if jump then some (1, 6) else some (0, 0)
    else if opname = "FORMAT_VALUE" then
      if Int.land oparg 4 ≠ 0 then some (2, 1) else some (1, 1)
    else if opname = "UNPACK_SEQUENCE" then some (1, oparg)
    else if opname = "UNPACK_EX" then
      some (1, Int.land oparg 255 + (oparg >>> (8 : Int)) + 1)
    else if opname = "FOR_ITER" then
      if jump then some (1, 0) else some (1, 2)
    else none

/-- `stack_effect_detail(opname, oparg, *, jump=False)`: fixed-table lookup
first, then the operand- and branch-dependent rules of
`computed_stack_effect`. -/
def stack_effect_detail (opname : String) (oparg : Int) (jump : Bool) :
    Option (Int × Int) :=
  match fixed_stack_effects_detail.lookup opname with
  | some eff => some eff
  | none => computed_stack_effect opname oparg jump

/-- The instruction names handled by the operand- or branch-dependent rules of
`stack_effect_detail` (the names tested in its if/elif chain). -/
def computed_effect_opnames : List String :=
  ["ROT_N", "BUILD_TUPLE", "BUILD_LIST", "BUILD_SET", "BUILD_STRING",
   "BUILD_MAP", "BUILD_CONST_KEY_MAP", "JUMP_IF_TRUE_OR_POP",
   "JUMP_IF_FALSE_OR_POP", "SETUP_FINALLY", "RAISE_VARARGS", "CALL_FUNCTION",
   "CALL_METHOD", "CALL_FUNCTION_KW", "CALL_FUNCTION_EX", "MAKE_FUNCTION",
   "BUILD_SLICE", "SETUP_ASYNC_WITH", "FORMAT_VALUE", "UNPACK_SEQUENCE",
   "UNPACK_EX", "FOR_ITER"]

/-- Modelled from the spec: `dis.hasjrel` of the targeted bytecode version
(CPython 3.10; the source file states "this is Python 3.10 specific").
The relative-jump opcodes published for that release. -/
def hasjrel : List Nat := [93, 110, 122, 143, 154]

/-- Modelled from the spec: `dis.hasjabs` of CPython 3.10, the
absolute-jump opcodes published for that release. -/
def hasjabs : List Nat := [111, 112, 113, 114, 115, 121]

/-- Modelled from the spec: the CPython 3.10 `dis.opname` mapping, restricted
to the jump opcodes used here. -/
def py310_opname (op : Nat) : String :=
  if op = 93 then "FOR_ITER"
  else if op = 110 then "JUMP_FORWARD"
  else if op = 111 then "JUMP_IF_FALSE_OR_POP"
  else if op = 112 then "JUMP_IF_TRUE_OR_POP"
  else if op = 113 then "JUMP_ABSOLUTE"
  else if op = 114 then "POP_JUMP_IF_FALSE"
  else if op = 115 then "POP_JUMP_IF_TRUE"
  else if op = 121 then "JUMP_IF_NOT_EXC_MATCH"
  else if op = 122 then "SETUP_FINALLY"
  else if op = 143 then "SETUP_WITH"
  else if op = 154 then "SETUP_ASYNC_WITH"
  else "<invalid>"

/-- `jump_instructions = set(dis.hasjabs) | set(dis.hasjrel)`: the union of the
two (disjoint) opcode lists. Note the source set holds opcode *numbers*. -/
def jump_instructions : List Nat := hasjabs ++ hasjrel

/-- The names of the instructions in `jump_instructions` (the source keeps
opcodes; the spec speaks of the corresponding name set). -/
def jump_instruction_names : List String := jump_instructions.map py310_opname

/-- `unconditional_jump_names`, transcribed from the source. -/
def unconditional_jump_names : List String :=
  ["JUMP_ABSOLUTE", "JUMP_FORWARD", "JUMP_BACKWARD", "JUMP_BACKWARD_NO_INTERRUPT"]

/-! ### Benchmark harness output directory (src/benchmarks/nanogpt_training_bench.py) -/

/-- `dir_for_outputs` from the harness: the f-string
`./thunder_traces/{config}_{args.dtype}_seq-{args.seq_len}` followed by
`_ddp_bucket_size-` + `str(bucket_size_in_mb)` when `use_ddp`, followed by
`_delayed_allreduce` when `use_ddp and args.delay_allreduce`. The float
`bucket_size_in_mb` enters the name only through Python `str`; it is
therefore modelled by its decimal rendering `bucket_size_str`. -/
def dir_for_outputs (config dtype : String) (seq_len : Nat) (use_ddp : Bool)
    (bucket_size_str : String) (delay_allreduce : Bool) : String :=
  "./thunder_traces/" ++ config ++ "_" ++ dtype ++ "_seq-" ++ toString seq_len
    ++ (if use_ddp then "_ddp_bucket_size-" ++ bucket_size_str else "")
    ++ (if use_ddp && delay_allreduce then "_delayed_allreduce" else "")

/-! ### Forward/backward split routine (src/thunder/executors/torch_autograd.py) -/

/-- A flattened bound argument of the traced function: a tensor (an instance
of `torch.Tensor` or `TensorProxy`, carrying its requires_grad flag) or any
non-tensor leaf. -/
inductive Leaf where
  | tensor (requires_grad : Bool)
  | nonTensor
deriving DecidableEq

/-- `isinstance(arg, (torch.Tensor, TensorProxy)) and arg.requires_grad`. -/
def leafRequiresGrad : Leaf → Bool
  | .tensor rg => rg
  | .nonTensor => false

/-- `requires_grad_mask = tuple(isinstance(arg, tensor_cls) and
arg.requires_grad for arg in flat_args)`. -/
def requires_grad_mask (flat_args : List Leaf) : List Bool :=
  flat_args.map leafRequiresGrad

/-- One entry of the backward trace's final return tuple after filtering: a
computed input-gradient value (identified by a number) or the absent-gradient
marker `None`. -/
inductive GradSlot where
  | grad (id : Nat)
  | noneMarker
deriving DecidableEq

/-- The externally implemented pipeline stages that `split_forward_backward`
invokes, in source order. Modelled from the spec: each stage is an external
pass of the trace-compiler core; the model records that the stage ran, and
treats the stages as preserving the backward trace's (already filtered) final
return tuple and the saved-tensor count, which is all the claims consult. -/
inductive PipelineEvent where
  | traceConstruction
  | sortDataParallelSyncs
  | forwardBackwardSplit
  | transformForExecutionForward
  | backwardSwapPatch
  | transformForExecutionBackward
  | rematerialization
  | sortWaits
  | delLastUsed
  | statsRecorded
deriving DecidableEq

/-- Which of the two finalized traces a compiled callable executes. -/
inductive TraceTag where
  | fwd
  | bwd
deriving DecidableEq

/-- A returned callable: `trace.python_callable()` either plain or wrapped as
`CUDAGraphExecutor(trace.python_callable(), num_constant_args=...)`. -/
inductive CompiledFn where
  | plain (t : TraceTag)
  | cudaGraphExecutor (t : TraceTag) (num_constant_args : Nat)
deriving DecidableEq

/-- Whether a returned callable is wrapped in the capture/replay executor. -/
def CompiledFn.isCudaGraphExecutor : CompiledFn → Bool
  | .cudaGraphExecutor _ _ => true
  | .plain _ => false

/-- The compile-configuration entries `split_forward_backward` reads:
`compile_config.get("use_cudagraphs", False)`. -/
structure CompileConfig where
  use_cudagraphs : Bool
deriving DecidableEq

/-- The compile-time data entries `split_forward_backward` reads:
`compile_data.use_cudagraphs` and `compile_data.num_constant_args`. -/
structure CompileData where
  use_cudagraphs : Bool
  num_constant_args : Nat
deriving DecidableEq

/-- The observable result of `split_forward_backward`: the backward trace's
final return tuple (`bw_trace.bound_symbols[-1].args[0]` after filtering) and
the two returned callables. -/
structure SplitOutput where
  bw_return : List GradSlot
  fw_callable : CompiledFn
  bw_callable : CompiledFn
deriving DecidableEq

/-- `split_forward_backward(*args, **kwargs)` over the flattened bound
arguments (signature binding and `tree_flatten` are the host's).

`arg_grads` stands for the input-gradient tuple that the external trace-level
differentiation put into the backward trace's final return
(`bw_trace.bound_symbols[-1].args[0]`, one per flattened input) and
`saved_tensors_count` for `len(bw_extrace.args[0][0])`; both are parameters
because their producers are external to this repository.

Returns the pipeline events performed together with either the error raised
(Python `raise` is `Except.error`) or the routine's observable result. The
`use_cudagraphs` wrapping happens, as in the source, inside the
`compile_stats is not None` block. `utils.safe_zip` raises on unequal
lengths. -/
def split_forward_backward (compile_config : CompileConfig)
    (compile_data : CompileData) (compile_stats_present : Bool)
    (flat_args : List Leaf) (arg_grads : List Nat) (saved_tensors_count : Nat) :
    List PipelineEvent × Except String SplitOutput :=
  let mask := requires_grad_mask flat_args
  if mask.any id = false then
    ([], .error "PyTorch's Autograd interface requires at least one tensor input with requires_grad=True")
  else
    let ev := [PipelineEvent.traceConstruction, PipelineEvent.sortDataParallelSyncs,
      PipelineEvent.forwardBackwardSplit]
    if arg_grads.length = mask.length then
      let filtered_grads := List.zipWith
        (fun arg_grad requires_grad =>
          if requires_grad then GradSlot.grad arg_grad else GradSlot.noneMarker)
        arg_grads mask
      let ev2 := ev ++ [PipelineEvent.transformForExecutionForward,
        PipelineEvent.backwardSwapPatch, PipelineEvent.transformForExecutionBackward,
        PipelineEvent.rematerialization, PipelineEvent.sortWaits,
        PipelineEvent.delLastUsed]
      if compile_stats_present then
        if compile_data.use_cudagraphs || compile_config.use_cudagraphs then
          (ev2 ++ [PipelineEvent.statsRecorded],
           .ok ⟨filtered_grads,
                .cudaGraphExecutor .fwd compile_data.num_constant_args,
                .cudaGraphExecutor .bwd saved_tensors_count⟩)
        else
          (ev2 ++ [PipelineEvent.statsRecorded],
           .ok ⟨filtered_grads, .plain .fwd, .plain .bwd⟩)
      else
        (ev2, .ok ⟨filtered_grads, .plain .fwd, .plain .bwd⟩)
    else
      (ev, .error "safe_zip: mismatched lengths")

/-! ### Distributed gradient-averaging rewrite
(`insert_bsym_to_allreduce_grads` in src/thunder/executors/torch_autograd.py) -/

/-- A trace value: a `TensorProxy`, a `FutureTensorProxy` (the in-flight
result of an asynchronous collective), Python `None`, the Python `True`
marker that the tracking table stores before communication is issued, or a
numeric constant (the world size; non-tensor return entries). Proxies are
identified by their variable identity (`variableify`), modelled as a
number. -/
inductive TValue where
  | tensor (id : Nat)
  | future (id : Nat)
  | noneV
  | boolTrue
  | intConst (n : Int)
deriving DecidableEq

/-- Identifiers of the operations this rewrite consults or emits; every other
operation is `other`. -/
inductive SymId where
  | RETURN
  | trueDivide
  | allReduce
  | wait
  | other (n : Nat)
deriving DecidableEq

/-- One recorded operation of a trace: its operation identifier, flat
arguments, and flat outputs (`bsym._flat_outs`). -/
structure BoundSymbol where
  sym : SymId
  args : List TValue
  outs : List TValue
deriving DecidableEq

/-- A finalized trace: its ordered bound symbols. -/
structure TraceCtx where
  bound_symbols : List BoundSymbol
deriving DecidableEq

/-- `backward_trace.output`: the value returned by the trace, i.e. the
argument tuple of its final RETURN operation (already flat here, so
`tree_flatten` of it is the list itself). -/
def TraceCtx.output (t : TraceCtx) : List TValue :=
  match t.bound_symbols.getLast? with
  | some b => if b.sym = SymId.RETURN then b.args else []
  | none => []

/-- A tracking-table entry (`grad_to_future[grad]`): the source stores `True`
before communication is issued and the all-reduce's `FutureTensorProxy`
afterwards. -/
inductive GradStatus where
  | pending
  | futureOf (id : Nat)
deriving DecidableEq

/-- `grad_to_future[grad] = status`: `utils.ProxyDict` assignment, keyed by
the tensor's variable identity; overwrites an existing entry, appends
otherwise. -/
def setGrad : List (Nat × GradStatus) → Nat → GradStatus → List (Nat × GradStatus)
  | [], g, s => [(g, s)]
  | (k, v) :: rest, g, s =>
    if k = g then (g, s) :: rest else (k, v) :: setGrad rest g s

/-- Tracking-table lookup. -/
def lookupGrad (m : List (Nat × GradStatus)) (g : Nat) : Option GradStatus :=
  m.lookup g

/-- `for grad in gradients: if not isinstance(grad, TensorProxy): continue;
grad_to_future[grad] = True`. -/
def initGradMap (gradients : List TValue) : List (Nat × GradStatus) :=
  gradients.foldl
    (fun m g =>
      match g with
      | TValue.tensor i => setGrad m i GradStatus.pending
      | _ => m)
    []

/-- Explicit state threaded through the rewrite pass: the tracing context's
fresh-proxy counter and the tracking table mutated by the visitor. -/
structure RewriteState where
  fresh : Nat
  gradToFuture : List (Nat × GradStatus)
deriving DecidableEq

/-- For one tracked gradient produced by the visited operation:
`preaveraged = ltorch.true_divide(grad, world_size)` then
`future = ltorch.all_reduce(preaveraged, group=pg, async_op=True)` then
`grad_to_future[grad] = future`. Emits the two traced bound symbols; the
process group is ambient (it is not a trace value), the world size enters as
the division's second argument, and the two fresh proxies take the next two
counter values. -/
def processGrad (world_size : Nat) (st : RewriteState) (gid : Nat) :
    RewriteState × List BoundSymbol :=
  (⟨st.fresh + 2, setGrad st.gradToFuture gid (GradStatus.futureOf (st.fresh + 1))⟩,
   [⟨SymId.trueDivide, [TValue.tensor gid, TValue.intConst (world_size : Int)],
      [TValue.tensor st.fresh]⟩,
    ⟨SymId.allReduce, [TValue.tensor st.fresh], [TValue.future (st.fresh + 1)]⟩])

/-- `for grad in grads_of_bsym: ...`, in output order. -/
def processGrads (world_size : Nat) (st : RewriteState) :
    List Nat → RewriteState × List BoundSymbol
  | [] => (st, [])
  | g :: rest =>
    let p := processGrad world_size st g
    let q := processGrads world_size p.1 rest
    (q.1, p.2 ++ q.2)

/-- `grads_of_bsym = tuple(t for t in bsym._flat_outs if
isinstance(t, TensorProxy) and t in grad_to_future)`. -/
def trackedOuts (m : List (Nat × GradStatus)) (outs : List TValue) : List Nat :=
  outs.filterMap
    (fun v =>
      match v with
      | TValue.tensor i => if (lookupGrad m i).isSome then some i else none
      | _ => none)

/-- The argument handed to `dist_prims.wait`: the tracked future or, when no
all-reduce was issued for the gradient, the `True` marker itself (the source
would then trace `wait(True)`); an untracked tensor would be a `KeyError`,
totalized here to the same marker. -/
def waitArgOf : GradStatus → TValue
  | GradStatus.pending => TValue.boolTrue
  | GradStatus.futureOf i => TValue.future i

/-- The RETURN branch of the visitor: `prims.python_return(*[
dist_prims.wait(grad_to_future[grad]) if isinstance(grad, TensorProxy) else
None for grad in gradients])`. Each `wait` call traces a wait bound symbol
producing a fresh tensor proxy; returns the updated state, the traced wait
symbols in order, and the new return arguments. -/
def buildWaits (st : RewriteState) :
    List TValue → RewriteState × List BoundSymbol × List TValue
  | [] => (st, [], [])
  | g :: rest =>
    match g with
    | TValue.tensor gid =>
      let arg := waitArgOf ((lookupGrad st.gradToFuture gid).getD GradStatus.pending)
      let r := buildWaits ⟨st.fresh + 1, st.gradToFuture⟩ rest
      (r.1, ⟨SymId.wait, [arg], [TValue.tensor st.fresh]⟩ :: r.2.1,
       TValue.tensor st.fresh :: r.2.2)
    | _ =>
      let r := buildWaits st rest
      (r.1, r.2.1, TValue.noneV :: r.2.2)

/-- One step of `visitor_transform` with `AllReduceGradVisitor`: a RETURN
operation is replaced (`VISIT_TYPE.REPLACE`) by the traced waits followed by
the new return; any other operation is kept, with the traced
pre-average/all-reduce pairs for its tracked gradient outputs inserted
directly after it (`VISIT_TYPE.INSERT_AFTER`; no insertion when it produced
no tracked gradient). -/
def visitBsym (world_size : Nat) (gradients : List TValue) (st : RewriteState)
    (b : BoundSymbol) : RewriteState × List BoundSymbol :=
  if b.sym = SymId.RETURN then
    let r := buildWaits st gradients
    (r.1, r.2.1 ++ [⟨SymId.RETURN, r.2.2, []⟩])
  else
    let p := processGrads world_size st (trackedOuts st.gradToFuture b.outs)
    (p.1, b :: p.2)

/-- The single forward sweep of `visitor_transform` over the trace's bound
symbols. -/
def visitAll (world_size : Nat) (gradients : List TValue) (st : RewriteState) :
    List BoundSymbol → RewriteState × List BoundSymbol
  | [] => (st, [])
  | b :: rest =>
    let p := visitBsym world_size gradients st b
    let q := visitAll world_size gradients p.1 rest
    (q.1, p.2 ++ q.2)

/-- The largest proxy identifier of a trace value. -/
def TValue.maxId : TValue → Nat
  | TValue.tensor i => i
  | TValue.future i => i
  | _ => 0

/-- The largest proxy identifier appearing in a trace; the tracing context
names fresh proxies above it. -/
def traceMaxId (t : TraceCtx) : Nat :=
  t.bound_symbols.foldl
    (fun acc b => ((b.args ++ b.outs).map TValue.maxId).foldl Nat.max acc) 0

/-- `insert_bsym_to_allreduce_grads(backward_trace, process_group)`:
`world_size` is `pg.size()` for the given (or default) process group;
`gradients` is the flattened trace output; the tracking table starts with
every gradient tensor marked `True`; then one visitor sweep rewrites the
bound symbols. Fresh proxies are modelled by a counter starting above every
identifier in the trace. -/
def insert_bsym_to_allreduce_grads (world_size : Nat) (backward_trace : TraceCtx) :
    TraceCtx :=
  let gradients := backward_trace.output
  let st : RewriteState := ⟨traceMaxId backward_trace + 1, initGradMap gradients⟩
  ⟨(visitAll world_size gradients st backward_trace.bound_symbols).2⟩

/-! ### Helper lemmas -/

theorem lookup_mem {α β : Type} [BEq α] [LawfulBEq α] (l : List (α × β)) (a : α) (b : β)
    (h : l.lookup a = some b) : (a, b) ∈ l := by
  induction l with
  | nil => simp [List.lookup] at h
  | cons x xs ih =>
    obtain ⟨k, v⟩ := x
    rw [List.lookup] at h
    by_cases hax : a == k
    · have hk : a = k := eq_of_beq hax
      simp [hax] at h
      subst hk
      subst h
      exact List.mem_cons_self _ _
    · simp [hax] at h
      exact List.mem_cons_of_mem _ (ih h)

theorem stack_effect_detail_of_lookup_some (opname : String) (oparg : Int)
    (jump : Bool) (p : Int × Int)
    (h : fixed_stack_effects_detail.lookup opname = some p) :
    stack_effect_detail opname oparg jump = some p := by
  unfold stack_effect_detail
  rw [h]

theorem stack_effect_detail_of_lookup_none (opname : String) (oparg : Int)
    (jump : Bool) (h : fixed_stack_effects_detail.lookup opname = none) :
    stack_effect_detail opname oparg jump = computed_stack_effect opname oparg jump := by
  unfold stack_effect_detail
  rw [h]

theorem fixed_table_nonneg :
    ∀ p ∈ fixed_stack_effects_detail, 0 ≤ p.2.1 ∧ 0 ≤ p.2.2 := by decide

theorem land_cast_255 (m : ℕ) : Int.land (↑m : ℤ) 255 = ((m &&& 255 : ℕ) : ℤ) := rfl

theorem shiftRight_cast_8 (m : ℕ) : (↑m : ℤ) >>> (8 : ℤ) = ((m >>> 8 : ℕ) : ℤ) := rfl

/-! ### Claim theorems for the bytecode table -/

/-- C6: for every instruction name present in the fixed stack-effect table,
`stack_effect_detail` returns the table's entry for every operand and every
branch flag; the result does not depend on the operand or the jump flag. -/
theorem c6_fixed_effects_operand_independent (opname : String) (p : Int × Int)
    (h : fixed_stack_effects_detail.lookup opname = some p)
    (oparg oparg2 : Int) (jump jump2 : Bool) :
    stack_effect_detail opname oparg jump = some p ∧
    stack_effect_detail opname oparg jump = stack_effect_detail opname oparg2 jump2 := by
  refine ⟨stack_effect_detail_of_lookup_some opname oparg jump p h, ?_⟩
  rw [stack_effect_detail_of_lookup_some opname oparg jump p h,
    stack_effect_detail_of_lookup_some opname oparg2 jump2 p h]

/-- Witness for C6 at the concrete name POP_TOP and operands 7 and 99. -/
theorem c6_witness :
    fixed_stack_effects_detail.lookup "POP_TOP" = some (1, 0) ∧
    stack_effect_detail "POP_TOP" 7 true = some (1, 0) ∧
    stack_effect_detail "POP_TOP" 7 true = stack_effect_detail "POP_TOP" 99 false :=
  ⟨by decide,
   (c6_fixed_effects_operand_independent "POP_TOP" (1, 0) (by decide) 7 99 true false).1,
   (c6_fixed_effects_operand_independent "POP_TOP" (1, 0) (by decide) 7 99 true false).2⟩

/-- C5: for the instruction names outside the fixed table that the
operand-dependent rules cover, `stack_effect_detail` computes exactly the
spec's rule table, as a function of the operand and the branch flag; in
particular BUILD_TUPLE 5 gives (5,1), BUILD_MAP 3 gives (6,1),
BUILD_CONST_KEY_MAP 4 gives (5,1), UNPACK_EX with high byte 2 and low
byte 3 (operand 515) gives (1,6), and FOR_ITER gives (1,0) taken and
(1,2) not taken. -/
theorem c5_computed_effects :
    (∀ (oparg : Int) (jump : Bool),
      stack_effect_detail "ROT_N" oparg jump = some (oparg, oparg)) ∧
    (∀ (oparg : Int) (jump : Bool),
      stack_effect_detail "BUILD_TUPLE" oparg jump = some (oparg, 1) ∧
      stack_effect_detail "BUILD_LIST" oparg jump = some (oparg, 1) ∧
      stack_effect_detail "BUILD_SET" oparg jump = some (oparg, 1) ∧
      stack_effect_detail "BUILD_STRING" oparg jump = some (oparg, 1)) ∧
    (∀ (oparg : Int) (jump : Bool),
      stack_effect_detail "BUILD_MAP" oparg jump = some (2 * oparg, 1)) ∧
    (∀ (oparg : Int) (jump : Bool),
      stack_effect_detail "BUILD_CONST_KEY_MAP" oparg jump = some (oparg + 1, 1)) ∧
    (∀ (oparg : Int),
      stack_effect_detail "JUMP_IF_TRUE_OR_POP" oparg true = some (1, 1) ∧
      stack_effect_detail "JUMP_IF_TRUE_OR_POP" oparg false = some (1, 0) ∧
      stack_effect_detail "JUMP_IF_FALSE_OR_POP" oparg true = some (1, 1) ∧
      stack_effect_detail "JUMP_IF_FALSE_OR_POP" oparg false = some (1, 0)) ∧
    (∀ (oparg : Int),
      stack_effect_detail "SETUP_FINALLY" oparg true = some (0, 6) ∧
      stack_effect_detail "SETUP_FINALLY" oparg false = some (0, 0)) ∧
    (∀ (oparg : Int) (jump : Bool),
      stack_effect_detail "RAISE_VARARGS" oparg jump = some (oparg, 0) ∧
      stack_effect_detail "CALL_FUNCTION" oparg jump = some (oparg + 1, 1) ∧
      stack_effect_detail "CALL_METHOD" oparg jump = some (oparg + 2, 1) ∧
      stack_effect_detail "CALL_FUNCTION_KW" oparg jump = some (oparg + 2, 1) ∧
      stack_effect_detail "BUILD_SLICE" oparg jump = some (oparg, 1) ∧
      stack_effect_detail "UNPACK_SEQUENCE" oparg jump = some (1, oparg)) ∧
    (∀ (oparg : Int) (jump : Bool),
      stack_effect_detail "CALL_FUNCTION_EX" oparg jump =
        some (2 + (if Int.land oparg 1 ≠ 0 then 1 else 0), 1) ∧
      stack_effect_detail "MAKE_FUNCTION" oparg jump =
        some (2 + (if Int.land oparg 1 ≠ 0 then 1 else 0) +
          (if Int.land oparg 2 ≠ 0 then 1 else 0) +
          (if Int.land oparg 4 ≠ 0 then 1 else 0) +
          (if Int.land oparg 8 ≠ 0 then 1 else 0), 1) ∧
      stack_effect_detail "FORMAT_VALUE" oparg jump =
        (if Int.land oparg 4 ≠ 0 then some (2, 1) else some (1, 1)) ∧
      stack_effect_detail "UNPACK_EX" oparg jump =
        some (1, Int.land oparg 255 + (oparg >>> (8 : Int)) + 1)) ∧
    (∀ (oparg : Int),
      stack_effect_detail "SETUP_ASYNC_WITH" oparg true = some (1, 6) ∧
      stack_effect_detail "SETUP_ASYNC_WITH" oparg false = some (0, 0)) ∧
    (∀ (oparg : Int),
      stack_effect_detail "FOR_ITER" oparg true = some (1, 0) ∧
      stack_effect_detail "FOR_ITER" oparg false = some (1, 2)) ∧
    stack_effect_detail "BUILD_TUPLE" 5 false = some (5, 1) ∧
    stack_effect_detail "BUILD_MAP" 3 false = some (6, 1) ∧
    stack_effect_detail "BUILD_CONST_KEY_MAP" 4 false = some (5, 1) ∧
    stack_effect_detail "UNPACK_EX" 515 false = some (1, 6) ∧
    stack_effect_detail "FOR_ITER" 0 true = some (1, 0) ∧
    stack_effect_detail "FOR_ITER" 0 false = some (1, 2) ∧
    stack_effect_detail "CALL_FUNCTION_EX" 0 false = some (2, 1) ∧
    stack_effect_detail "CALL_FUNCTION_EX" 1 false = some (3, 1) ∧
    stack_effect_detail "MAKE_FUNCTION" 0 false = some (2, 1) ∧
    stack_effect_detail "MAKE_FUNCTION" 15 false = some (6, 1) :=
  ⟨fun _ _ => rfl, fun _ _ => ⟨rfl, rfl, rfl, rfl⟩, fun _ _ => rfl, fun _ _ => rfl,
   fun _ => ⟨rfl, rfl, rfl, rfl⟩, fun _ => ⟨rfl, rfl⟩,
   fun _ _ => ⟨rfl, rfl, rfl, rfl, rfl, rfl⟩, fun _ _ => ⟨rfl, rfl, rfl, rfl⟩,
   fun _ => ⟨rfl, rfl⟩, fun _ => ⟨rfl, rfl⟩,
   by decide, by decide, by decide, by decide, by decide, by decide,
   by decide, by decide, by decide, by decide⟩

/-- C8: for every instruction name absent from the fixed table and from the
operand-dependent rules, `stack_effect_detail` signals the invalid-opcode
error (modelled as `none`) and returns no (pop, push) pair, for every operand
and branch flag. -/
theorem c8_invalid_opname (opname : String) (oparg : Int) (jump : Bool)
    (h1 : fixed_stack_effects_detail.lookup opname = none)
    (h2 : opname ∉ computed_effect_opnames) :
    stack_effect_detail opname oparg jump = none := by
  simp only [computed_effect_opnames, List.mem_cons, List.not_mem_nil, or_false,
    not_or] at h2
  obtain ⟨e1, e2, e3, e4, e5, e6, e7, e8, e9, e10, e11, e12, e13, e14, e15, e16,
    e17, e18, e19, e20, e21, e22⟩ := h2
  rw [stack_effect_detail_of_lookup_none opname oparg jump h1]
  unfold computed_stack_effect
  simp [e1, e2, e3, e4, e5, e6, e7, e8, e9, e10, e11, e12, e13, e14, e15, e16,
    e17, e18, e19, e20, e21, e22]

/-- Witness for C8 at the unknown name UNKNOWN_OP. -/
theorem c8_witness :
    fixed_stack_effects_detail.lookup "UNKNOWN_OP" = none ∧
    "UNKNOWN_OP" ∉ computed_effect_opnames ∧
    stack_effect_detail "UNKNOWN_OP" 3 true = none :=
  ⟨by decide, by decide, c8_invalid_opname "UNKNOWN_OP" 3 true (by decide) (by decide)⟩

set_option maxHeartbeats 2000000 in
/-- C10: whenever `stack_effect_detail` accepts an instruction (any name, any
non-negative operand, either branch flag), both components of the returned
(pop, push) pair are non-negative. -/
theorem c10_stack_effect_nonneg (opname : String) (oparg : Int) (jump : Bool)
    (pop push : Int) (h0 : 0 ≤ oparg)
    (h : stack_effect_detail opname oparg jump = some (pop, push)) :
    0 ≤ pop ∧ 0 ≤ push := by
  obtain ⟨m, rfl⟩ := Int.eq_ofNat_of_zero_le h0
  cases htbl : fixed_stack_effects_detail.lookup opname with
  | some q =>
    rw [stack_effect_detail_of_lookup_some opname (↑m) jump q htbl] at h
    simp only [Option.some.injEq] at h
    subst h
    exact fixed_table_nonneg (opname, (pop, push)) (lookup_mem _ _ _ htbl)
  | none =>
    rw [stack_effect_detail_of_lookup_none opname (↑m) jump htbl] at h
    unfold computed_stack_effect at h
    by_cases c1 : opname = "ROT_N"
    · rw [if_pos c1] at h
      injection h with hp
      injection hp with h1 h2
      subst h1
      subst h2
      exact ⟨by omega, by omega⟩
    rw [if_neg c1] at h
    by_cases c2 : opname = "BUILD_TUPLE" ∨ opname = "BUILD_LIST" ∨
        opname = "BUILD_SET" ∨ opname = "BUILD_STRING"
    · rw [if_pos c2] at h
      injection h with hp
      injection hp with h1 h2
      subst h1
      subst h2
      exact ⟨by omega, by omega⟩
    rw [if_neg c2] at h
    by_cases c3 : opname = "BUILD_MAP"
    · rw [if_pos c3] at h
      injection h with hp
      injection hp with h1 h2
      subst h1
      subst h2
      exact ⟨by omega, by omega⟩
    rw [if_neg c3] at h
    by_cases c4 : opname = "BUILD_CONST_KEY_MAP"
    · rw [if_pos c4] at h
      injection h with hp
      injection hp with h1 h2
      subst h1
      subst h2
      exact ⟨by omega, by omega⟩
    rw [if_neg c4] at h
    by_cases c5 : opname = "JUMP_IF_TRUE_OR_POP" ∨ opname = "JUMP_IF_FALSE_OR_POP"
    · rw [if_pos c5] at h
      cases jump <;>
        (injection h with hp
         injection hp with h1 h2
         subst h1
         subst h2
         exact ⟨by omega, by omega⟩)
    rw [if_neg c5] at h
    by_cases c6 : opname = "SETUP_FINALLY"
    · rw [if_pos c6] at h
      cases jump <;>
        (injection h with hp
         injection hp with h1 h2
         subst h1
         subst h2
         exact ⟨by omega, by omega⟩)
    rw [if_neg c6] at h
    by_cases c7 : opname = "RAISE_VARARGS"
    · rw [if_pos c7] at h
      injection h with hp
      injection hp with h1 h2
      subst h1
      subst h2
      exact ⟨by omega, by omega⟩
    rw [if_neg c7] at h
    by_cases c8 : opname = "CALL_FUNCTION"
    · rw [if_pos c8] at h
      injection h with hp
      injection hp with h1 h2
      subst h1
      subst h2
      exact ⟨by omega, by omega⟩
    rw [if_neg c8] at h
    by_cases c9 : opname = "CALL_METHOD"
    · rw [if_pos c9] at h
      injection h with hp
      injection hp with h1 h2
      subst h1
      subst h2
      exact ⟨by omega, by omega⟩
    rw [if_neg c9] at h
    by_cases c10 : opname = "CALL_FUNCTION_KW"
    · rw [if_pos c10] at h
      injection h with hp
      injection hp with h1 h2
      subst h1
      subst h2
      exact ⟨by omega, by omega⟩
    rw [if_neg c10] at h
    by_cases c11 : opname = "CALL_FUNCTION_EX"
    · rw [if_pos c11] at h
      injection h with hp
      injection hp with h1 h2
      subst h1
      subst h2
      exact ⟨by split_ifs <;> omega, by omega⟩
    rw [if_neg c11] at h
    by_cases c12 : opname = "MAKE_FUNCTION"
    · rw [if_pos c12] at h
      injection h with hp
      injection hp with h1 h2
      subst h1
      subst h2
      exact ⟨by split_ifs <;> omega, by omega⟩
    rw [if_neg c12] at h
    by_cases c13 : opname = "BUILD_SLICE"
    · rw [if_pos c13] at h
      injection h with hp
      injection hp with h1 h2
      subst h1
      subst h2
      exact ⟨by omega, by omega⟩
    rw [if_neg c13] at h
    by_cases c14 : opname = "SETUP_ASYNC_WITH"
    · rw [if_pos c14] at h
      cases jump <;>
        (injection h with hp
         injection hp with h1 h2
         subst h1
         subst h2
         exact ⟨by omega, by omega⟩)
    rw [if_neg c14] at h
    by_cases c15 : opname = "FORMAT_VALUE"
    · rw [if_pos c15] at h
      by_cases c15b : Int.land (↑m : ℤ) 4 ≠ 0
      · rw [if_pos c15b] at h
        injection h with hp
        injection hp with h1 h2
        subst h1
        subst h2
        exact ⟨by omega, by omega⟩
      · rw [if_neg c15b] at h
        injection h with hp
        injection hp with h1 h2
        subst h1
        subst h2
        exact ⟨by omega, by omega⟩
    rw [if_neg c15] at h
    by_cases c16 : opname = "UNPACK_SEQUENCE"
    · rw [if_pos c16] at h
      injection h with hp
      injection hp with h1 h2
      subst h1
      subst h2
      exact ⟨by omega, by omega⟩
    rw [if_neg c16] at h
    by_cases c17 : opname = "UNPACK_EX"
    · rw [if_pos c17] at h
      injection h with hp
      injection hp with h1 h2
      subst h1
      subst h2
      refine ⟨by omega, ?_⟩
      rw [land_cast_255, shiftRight_cast_8]
      omega
    rw [if_neg c17] at h
    by_cases c18 : opname = "FOR_ITER"
    · rw [if_pos c18] at h
      cases jump <;>
        (injection h with hp
         injection hp with h1 h2
         subst h1
         subst h2
         exact ⟨by omega, by omega⟩)
    rw [if_neg c18] at h
    exact Option.noConfusion h

/-- Witness for C10 at POP_TOP with operand 0. -/
theorem c10_witness : (0 : Int) ≤ 1 ∧ (0 : Int) ≤ 0 :=
  c10_stack_effect_nonneg "POP_TOP" 0 false 1 0 (by decide) (by decide)

/-! ### Claim theorems for the jump-name sets -/

/-- C4 counterexample: "JUMP_BACKWARD" is one of the four
`unconditional_jump_names`, yet it is not among the names of the Python 3.10
absolute/relative jump instructions that `jump_instructions` collects, so the
claim that every member of the unconditional set lies in the derived jump set
is false. -/
theorem c4_counterexample :
    "JUMP_BACKWARD" ∈ unconditional_jump_names ∧
    "JUMP_BACKWARD" ∉ jump_instruction_names := by decide

/-- C4 (amended): the set of unconditional-jump names has exactly four
members; exactly two of them, JUMP_ABSOLUTE and JUMP_FORWARD, are names of
Python 3.10 jump instructions, while JUMP_BACKWARD and
JUMP_BACKWARD_NO_INTERRUPT name instructions of later bytecode versions and
are not in the derived jump set. -/
theorem c4_unconditional_jump_names_amended :
    unconditional_jump_names.length = 4 ∧
    "JUMP_ABSOLUTE" ∈ unconditional_jump_names ∧
    "JUMP_ABSOLUTE" ∈ jump_instruction_names ∧
    "JUMP_FORWARD" ∈ unconditional_jump_names ∧
    "JUMP_FORWARD" ∈ jump_instruction_names ∧
    "JUMP_BACKWARD" ∉ jump_instruction_names ∧
    "JUMP_BACKWARD_NO_INTERRUPT" ∉ jump_instruction_names := by decide

/-! ### Claim theorem for the harness output directory -/

/-- C9: the harness output-directory name is exactly
`./thunder_traces/<model>_<dtype>_seq-<seqlen>`, with
`_ddp_bucket_size-<bucket>` appended exactly when the run is distributed and
`_delayed_allreduce` further appended exactly when the run is distributed and
the delay-allreduce flag is set; including the two concrete instances of the
claim. -/
theorem c9_dir_for_outputs :
    (∀ (config dtype : String) (seq_len : Nat) (bucket : String) (delay : Bool),
      dir_for_outputs config dtype seq_len false bucket delay =
        "./thunder_traces/" ++ config ++ "_" ++ dtype ++ "_seq-" ++ toString seq_len) ∧
    (∀ (config dtype : String) (seq_len : Nat) (bucket : String),
      dir_for_outputs config dtype seq_len true bucket false =
        "./thunder_traces/" ++ config ++ "_" ++ dtype ++ "_seq-" ++ toString seq_len
          ++ "_ddp_bucket_size-" ++ bucket) ∧
    (∀ (config dtype : String) (seq_len : Nat) (bucket : String),
      dir_for_outputs config dtype seq_len true bucket true =
        "./thunder_traces/" ++ config ++ "_" ++ dtype ++ "_seq-" ++ toString seq_len
          ++ "_ddp_bucket_size-" ++ bucket ++ "_delayed_allreduce") ∧
    dir_for_outputs "gpt2" "float16" 64 false "25.0" false =
      "./thunder_traces/gpt2_float16_seq-64" ∧
    dir_for_outputs "gpt2" "float16" 64 true "25.0" true =
      "./thunder_traces/gpt2_float16_seq-64_ddp_bucket_size-25.0_delayed_allreduce" := by
  refine ⟨?_, ?_, ?_, by decide, by decide⟩
  · intro config dtype seq_len bucket delay
    simp [dir_for_outputs, String.append_assoc]
  · intro config dtype seq_len bucket
    simp [dir_for_outputs, String.append_assoc]
  · intro config dtype seq_len bucket
    simp [dir_for_outputs, String.append_assoc]

/-! ### Claim theorems for the split routine -/

theorem split_ok_characterization (cc : CompileConfig) (cd : CompileData)
    (sp : Bool) (flat_args : List Leaf) (arg_grads : List Nat) (stc : Nat)
    (out : SplitOutput)
    (h : (split_forward_backward cc cd sp flat_args arg_grads stc).2 = .ok out) :
    arg_grads.length = (requires_grad_mask flat_args).length ∧
    out.bw_return = List.zipWith
      (fun arg_grad requires_grad =>
        if requires_grad then GradSlot.grad arg_grad else GradSlot.noneMarker)
      arg_grads (requires_grad_mask flat_args) := by
  unfold split_forward_backward at h
  by_cases hany : (requires_grad_mask flat_args).any id = false
  · rw [if_pos hany] at h
    exact Except.noConfusion h
  rw [if_neg hany] at h
  by_cases hlen : arg_grads.length = (requires_grad_mask flat_args).length
  · rw [if_pos hlen] at h
    refine ⟨hlen, ?_⟩
    cases sp with
    | true =>
      by_cases hreq : (cd.use_cudagraphs || cc.use_cudagraphs) = true
      · rw [if_pos rfl, if_pos hreq] at h
        injection h with h2
        subst h2
        rfl
      · rw [if_pos rfl, if_neg hreq] at h
        injection h with h2
        subst h2
        rfl
    | false =>
      rw [if_neg Bool.false_ne_true] at h
      injection h with h2
      subst h2
      rfl
  · rw [if_neg hlen] at h
    exact Except.noConfusion h

/-- C2: if no flattened bound argument is a tensor flagged as requiring
gradients, `split_forward_backward` raises the differentiable-input error,
and it does so with an empty pipeline-event list: in particular no trace
construction happened before the error. -/
theorem c2_no_differentiable_input (cc : CompileConfig) (cd : CompileData)
    (sp : Bool) (flat_args : List Leaf) (arg_grads : List Nat) (stc : Nat)
    (h : ∀ a ∈ flat_args, leafRequiresGrad a = false) :
    split_forward_backward cc cd sp flat_args arg_grads stc =
      ([], .error "PyTorch's Autograd interface requires at least one tensor input with requires_grad=True") := by
  have hm : (requires_grad_mask flat_args).any id = false := by
    rw [List.any_eq_false]
    intro a ha
    rw [requires_grad_mask] at ha
    obtain ⟨x, hx, rfl⟩ := List.mem_map.mp ha
    simp [h x hx]
  simp [split_forward_backward, hm]

/-- Witness for C2: two flattened inputs, a non-tensor and a tensor with
requires_grad=False; the routine errors and performs no pipeline event. -/
theorem c2_witness :
    (∀ a ∈ [Leaf.nonTensor, Leaf.tensor false], leafRequiresGrad a = false) ∧
    split_forward_backward ⟨false⟩ ⟨false, 0⟩ true
      [Leaf.nonTensor, Leaf.tensor false] [0, 1] 0 =
      ([], .error "PyTorch's Autograd interface requires at least one tensor input with requires_grad=True") :=
  ⟨by decide,
   c2_no_differentiable_input ⟨false⟩ ⟨false, 0⟩ true
     [Leaf.nonTensor, Leaf.tensor false] [0, 1] 0 (by decide)⟩

/-- C3 counterexample: capture-graph replay is requested by both the compile
configuration and the compile-time data, but no compile-statistics record is
supplied; the routine succeeds and returns both callables unwrapped, so the
claim that every replay-requesting run wraps both callables is false. -/
theorem c3_counterexample :
    (split_forward_backward ⟨true⟩ ⟨true, 3⟩ false [Leaf.tensor true] [7] 2).2 =
      Except.ok ⟨[GradSlot.grad 7], CompiledFn.plain TraceTag.fwd,
        CompiledFn.plain TraceTag.bwd⟩ ∧
    (CompiledFn.plain TraceTag.fwd).isCudaGraphExecutor = false ∧
    (CompiledFn.plain TraceTag.bwd).isCudaGraphExecutor = false := by
  refine ⟨rfl, rfl, rfl⟩

/-- C3 (amended): when a compile-statistics record is supplied and
capture-graph replay was requested by compile configuration or compile-time
data, both returned callables are wrapped in the capture/replay executor, the
forward one with the constant leading-argument count from compile-time data
and the backward one with the number of saved-for-backward tensors. -/
theorem c3_cudagraphs_amended (cc : CompileConfig) (cd : CompileData)
    (flat_args : List Leaf) (arg_grads : List Nat) (stc : Nat)
    (hany : (requires_grad_mask flat_args).any id = true)
    (hlen : arg_grads.length = (requires_grad_mask flat_args).length)
    (hreq : (cd.use_cudagraphs || cc.use_cudagraphs) = true) :
    ∃ out : SplitOutput,
      (split_forward_backward cc cd true flat_args arg_grads stc).2 = .ok out ∧
      out.fw_callable = .cudaGraphExecutor .fwd cd.num_constant_args ∧
      out.bw_callable = .cudaGraphExecutor .bwd stc := by
  refine ⟨⟨List.zipWith
    (fun arg_grad requires_grad =>
      if requires_grad then GradSlot.grad arg_grad else GradSlot.noneMarker)
    arg_grads (requires_grad_mask flat_args),
    .cudaGraphExecutor .fwd cd.num_constant_args,
    .cudaGraphExecutor .bwd stc⟩, ?_, rfl, rfl⟩
  simp [split_forward_backward, hany, hlen, hreq]

/-- Witness for C3 (amended) at one gradient-requiring tensor input, replay
requested by compile-time data, 2 saved tensors, constant-argument count 3. -/
theorem c3_witness :
    ((requires_grad_mask [Leaf.tensor true]).any id = true) ∧
    ∃ out : SplitOutput,
      (split_forward_backward ⟨false⟩ ⟨true, 3⟩ true [Leaf.tensor true] [7] 2).2 =
        .ok out ∧
      out.fw_callable = .cudaGraphExecutor .fwd 3 ∧
      out.bw_callable = .cudaGraphExecutor .bwd 2 :=
  ⟨by decide,
   c3_cudagraphs_amended ⟨false⟩ ⟨true, 3⟩ [Leaf.tensor true] [7] 2
     (by decide) (by decide) (by decide)⟩

/-- C7: whenever the split routine returns, the backward trace's final return
tuple has the absent-gradient marker at every position whose flattened input
does not require a gradient, and the computed gradient value exactly at the
positions whose flattened input requires one, in flat-input order. -/
theorem c7_backward_return_filtered (cc : CompileConfig) (cd : CompileData)
    (sp : Bool) (flat_args : List Leaf) (arg_grads : List Nat) (stc : Nat)
    (out : SplitOutput)
    (h : (split_forward_backward cc cd sp flat_args arg_grads stc).2 = .ok out) :
    out.bw_return.length = flat_args.length ∧
    ∀ i : Nat,
      ((requires_grad_mask flat_args)[i]? = some false →
        out.bw_return[i]? = some GradSlot.noneMarker) ∧
      (∀ g : Nat, (requires_grad_mask flat_args)[i]? = some true →
        arg_grads[i]? = some g →
        out.bw_return[i]? = some (GradSlot.grad g)) := by
  obtain ⟨hlen, hret⟩ := split_ok_characterization cc cd sp flat_args arg_grads stc out h
  have hmask_len : (requires_grad_mask flat_args).length = flat_args.length :=
    List.length_map _ _
  constructor
  · rw [hret, List.length_zipWith, hlen, hmask_len, min_self]
  intro i
  have hget : ∀ b : Bool, (requires_grad_mask flat_args)[i]? = some b →
      ∃ g : Nat, arg_grads[i]? = some g := by
    intro b hb
    have hi : i < (requires_grad_mask flat_args).length := by
      by_contra hcon
      rw [List.getElem?_eq_none (Nat.le_of_not_lt hcon)] at hb
      exact Option.noConfusion hb
    have hi2 : i < arg_grads.length := by omega
    exact ⟨arg_grads[i], List.getElem?_eq_some.mpr ⟨hi2, rfl⟩⟩
  constructor
  · intro hmask
    obtain ⟨g, hg⟩ := hget false hmask
    rw [hret, List.getElem?_zipWith', hg, hmask]
    rfl
  · intro g hmask hg
    rw [hret, List.getElem?_zipWith', hg, hmask]
    rfl

/-- Witness for C7: three flattened inputs of which only the first requires a
gradient; the returned backward tuple keeps the first gradient and has the
absent-gradient marker at the two other positions. -/
theorem c7_witness :
    ((split_forward_backward ⟨false⟩ ⟨false, 0⟩ false
        [Leaf.tensor true, Leaf.nonTensor, Leaf.tensor false] [5, 6, 7] 1).2 =
      Except.ok ⟨[GradSlot.grad 5, GradSlot.noneMarker, GradSlot.noneMarker],
        CompiledFn.plain TraceTag.fwd, CompiledFn.plain TraceTag.bwd⟩) ∧
    ((SplitOutput.mk [GradSlot.grad 5, GradSlot.noneMarker, GradSlot.noneMarker]
        (CompiledFn.plain TraceTag.fwd) (CompiledFn.plain TraceTag.bwd)).bw_return.length =
      [Leaf.tensor true, Leaf.nonTensor, Leaf.tensor false].length ∧
     ∀ i : Nat,
      ((requires_grad_mask [Leaf.tensor true, Leaf.nonTensor, Leaf.tensor false])[i]? =
          some false →
        (SplitOutput.mk [GradSlot.grad 5, GradSlot.noneMarker, GradSlot.noneMarker]
          (CompiledFn.plain TraceTag.fwd) (CompiledFn.plain TraceTag.bwd)).bw_return[i]? =
          some GradSlot.noneMarker) ∧
      (∀ g : Nat,
        (requires_grad_mask [Leaf.tensor true, Leaf.nonTensor, Leaf.tensor false])[i]? =
          some true →
        [5, 6, 7][i]? = some g →
        (SplitOutput.mk [GradSlot.grad 5, GradSlot.noneMarker, GradSlot.noneMarker]
          (CompiledFn.plain TraceTag.fwd) (CompiledFn.plain TraceTag.bwd)).bw_return[i]? =
          some (GradSlot.grad g))) :=
  ⟨rfl,
   c7_backward_return_filtered ⟨false⟩ ⟨false, 0⟩ false
     [Leaf.tensor true, Leaf.nonTensor, Leaf.tensor false] [5, 6, 7] 1
     (SplitOutput.mk [GradSlot.grad 5, GradSlot.noneMarker, GradSlot.noneMarker]
       (CompiledFn.plain TraceTag.fwd) (CompiledFn.plain TraceTag.bwd)) rfl⟩

/-! ### Helper lemmas for the gradient-averaging rewrite -/

theorem lookupGrad_setGrad_self (m : List (Nat × GradStatus)) (g : Nat)
    (s : GradStatus) : lookupGrad (setGrad m g s) g = some s := by
  induction m with
  | nil => rw [setGrad, lookupGrad, List.lookup_cons, beq_self_eq_true g]
  | cons kv rest ih =>
    obtain ⟨k, v⟩ := kv
    by_cases hk : k = g
    · rw [setGrad, if_pos hk, lookupGrad, List.lookup_cons, beq_self_eq_true g]
    · rw [setGrad, if_neg hk, lookupGrad, List.lookup_cons,
        beq_false_of_ne (Ne.symm hk)]
      exact ih

theorem lookupGrad_setGrad_ne (m : List (Nat × GradStatus)) (g g' : Nat)
    (s : GradStatus) (h : g' ≠ g) :
    lookupGrad (setGrad m g s) g' = lookupGrad m g' := by
  induction m with
  | nil =>
    rw [setGrad, lookupGrad, List.lookup_cons, beq_false_of_ne h]
    rfl
  | cons kv rest ih =>
    obtain ⟨k, v⟩ := kv
    by_cases hk : k = g
    · subst hk
      rw [setGrad, if_pos rfl]
      rw [lookupGrad, List.lookup_cons, beq_false_of_ne h]
      rw [lookupGrad, List.lookup_cons, beq_false_of_ne h]
    · by_cases hgk : g' = k
      · subst hgk
        rw [setGrad, if_neg hk]
        rw [lookupGrad, List.lookup_cons, beq_self_eq_true g']
        rw [lookupGrad, List.lookup_cons, beq_self_eq_true g']
      · rw [setGrad, if_neg hk]
        rw [lookupGrad, List.lookup_cons, beq_false_of_ne hgk]
        rw [lookupGrad, List.lookup_cons, beq_false_of_ne hgk]
        exact ih

theorem lookupGrad_setGrad_isSome (m : List (Nat × GradStatus)) (g g' : Nat)
    (s : GradStatus) (h : (lookupGrad m g').isSome) :
    (lookupGrad (setGrad m g s) g').isSome := by
  by_cases hg : g' = g
  · subst hg
    rw [lookupGrad_setGrad_self]
    rfl
  · rw [lookupGrad_setGrad_ne m g g' s hg]
    exact h

theorem initGradMap_go (gs : List TValue) (m : List (Nat × GradStatus)) (g : Nat) :
    lookupGrad
      (gs.foldl
        (fun m g =>
          match g with
          | TValue.tensor i => setGrad m i GradStatus.pending
          | _ => m)
        m) g =
      if TValue.tensor g ∈ gs then some GradStatus.pending else lookupGrad m g := by
  induction gs generalizing m with
  | nil => simp
  | cons v rest ih =>
    rw [List.foldl_cons, ih]
    cases v with
    | tensor i =>
      by_cases hmem : TValue.tensor g ∈ rest
      · simp [hmem]
      · rw [if_neg hmem]
        by_cases hig : i = g
        · subst hig
          rw [lookupGrad_setGrad_self]
          simp
        · rw [lookupGrad_setGrad_ne _ _ _ _ (Ne.symm hig)]
          have : TValue.tensor g ∉ (TValue.tensor i :: rest) := by
            intro hc
            rcases List.mem_cons.mp hc with h1 | h1
            · exact hig (TValue.tensor.injEq _ _ ▸ h1).symm
            · exact hmem h1
          rw [if_neg this]
    | future i => simp
    | noneV => simp
    | boolTrue => simp
    | intConst n => simp

theorem lookupGrad_initGradMap (gs : List TValue) (g : Nat) :
    lookupGrad (initGradMap gs) g =
      if TValue.tensor g ∈ gs then some GradStatus.pending else none := by
  rw [initGradMap, initGradMap_go]
  rfl

theorem processGrads_lookup_of_not_mem (ws : Nat) (st : RewriteState)
    (gids : List Nat) (g : Nat) (h : g ∉ gids) :
    lookupGrad (processGrads ws st gids).1.gradToFuture g =
      lookupGrad st.gradToFuture g := by
  induction gids generalizing st with
  | nil => rfl
  | cons g0 rest ih =>
    have hne : g ≠ g0 := fun e => h (e ▸ List.mem_cons_self g0 rest)
    have hrest : g ∉ rest := fun hr => h (List.mem_cons_of_mem _ hr)
    simp only [processGrads]
    rw [ih _ hrest]
    exact lookupGrad_setGrad_ne _ _ _ _ hne

theorem processGrads_mem_future (ws : Nat) (st : RewriteState) (gids : List Nat)
    (g : Nat) (h : g ∈ gids) :
    ∃ f, lookupGrad (processGrads ws st gids).1.gradToFuture g =
      some (GradStatus.futureOf f) := by
  induction gids generalizing st with
  | nil => cases h
  | cons g0 rest ih =>
    simp only [processGrads]
    by_cases hr : g ∈ rest
    · exact ih _ hr
    · have hg : g = g0 := by
        rcases List.mem_cons.mp h with h1 | h1
        · exact h1
        · exact absurd h1 hr
      subst hg
      rw [processGrads_lookup_of_not_mem _ _ _ _ hr]
      exact ⟨st.fresh + 1, lookupGrad_setGrad_self _ _ _⟩

theorem processGrads_isSome (ws : Nat) (st : RewriteState) (gids : List Nat)
    (g : Nat) (h : (lookupGrad st.gradToFuture g).isSome) :
    (lookupGrad (processGrads ws st gids).1.gradToFuture g).isSome := by
  induction gids generalizing st with
  | nil => exact h
  | cons g0 rest ih =>
    simp only [processGrads]
    exact ih _ (lookupGrad_setGrad_isSome _ _ _ _ h)

theorem processGrads_future_persists (ws : Nat) (st : RewriteState)
    (gids : List Nat) (g f : Nat)
    (h : lookupGrad st.gradToFuture g = some (GradStatus.futureOf f)) :
    ∃ q, lookupGrad (processGrads ws st gids).1.gradToFuture g =
      some (GradStatus.futureOf q) := by
  by_cases hg : g ∈ gids
  · exact processGrads_mem_future ws st gids g hg
  · rw [processGrads_lookup_of_not_mem ws st gids g hg]
    exact ⟨f, h⟩

theorem processGrads_chain (ws : Nat) (st : RewriteState) (gids : List Nat)
    (g f : Nat)
    (h : lookupGrad (processGrads ws st gids).1.gradToFuture g =
      some (GradStatus.futureOf f)) :
    (∃ p, (⟨SymId.trueDivide, [TValue.tensor g, TValue.intConst (ws : Int)],
        [TValue.tensor p]⟩ : BoundSymbol) ∈ (processGrads ws st gids).2 ∧
      (⟨SymId.allReduce, [TValue.tensor p], [TValue.future f]⟩ : BoundSymbol) ∈
        (processGrads ws st gids).2) ∨
    lookupGrad st.gradToFuture g = some (GradStatus.futureOf f) := by
  induction gids generalizing st with
  | nil => exact Or.inr h
  | cons g0 rest ih =>
    simp only [processGrads] at h ⊢
    rcases ih _ h with ⟨p, h1, h2⟩ | hback
    · left
      exact ⟨p, List.mem_append_right _ h1, List.mem_append_right _ h2⟩
    · by_cases hg : g = g0
      · subst hg
        have : lookupGrad (processGrad ws st g).1.gradToFuture g =
            some (GradStatus.futureOf (st.fresh + 1)) :=
          lookupGrad_setGrad_self _ _ _
        rw [this] at hback
        have hf : f = st.fresh + 1 := by
          injection hback with hb
          injection hb with hb2
          exact hb2.symm
        subst hf
        left
        refine ⟨st.fresh, List.mem_append_left _ ?_, List.mem_append_left _ ?_⟩
        · exact List.mem_cons_self _ _
        · exact List.mem_cons_of_mem _ (List.mem_cons_self _ _)
      · have : lookupGrad (processGrad ws st g0).1.gradToFuture g =
            lookupGrad st.gradToFuture g :=
          lookupGrad_setGrad_ne _ _ _ _ hg
        rw [this] at hback
        exact Or.inr hback

theorem mem_trackedOuts (m : List (Nat × GradStatus)) (outs : List TValue)
    (gid : Nat) (hmem : TValue.tensor gid ∈ outs)
    (hs : (lookupGrad m gid).isSome) : gid ∈ trackedOuts m outs := by
  rw [trackedOuts, List.mem_filterMap]
  exact ⟨TValue.tensor gid, hmem, by simp [hs]⟩

theorem buildWaits_map_const (gs : List TValue) (st : RewriteState) :
    (buildWaits st gs).1.gradToFuture = st.gradToFuture := by
  induction gs generalizing st with
  | nil => rfl
  | cons g rest ih =>
    cases g with
    | tensor gid =>
      simp only [buildWaits]
      exact ih ⟨st.fresh + 1, st.gradToFuture⟩
    | future i => exact ih st
    | noneV => exact ih st
    | boolTrue => exact ih st
    | intConst n => exact ih st

theorem buildWaits_length (gs : List TValue) (st : RewriteState) :
    (buildWaits st gs).2.2.length = gs.length := by
  induction gs generalizing st with
  | nil => rfl
  | cons g rest ih =>
    cases g with
    | tensor gid =>
      simp only [buildWaits, List.length_cons]
      rw [ih]
    | future i =>
      simp only [buildWaits, List.length_cons]
      rw [ih]
    | noneV =>
      simp only [buildWaits, List.length_cons]
      rw [ih]
    | boolTrue =>
      simp only [buildWaits, List.length_cons]
      rw [ih]
    | intConst n =>
      simp only [buildWaits, List.length_cons]
      rw [ih]

theorem buildWaits_spec (gs : List TValue) (st : RewriteState) (i : Nat)
    (v : TValue) (hv : gs[i]? = some v) :
    (∀ gid, v = TValue.tensor gid →
      ∃ w, (buildWaits st gs).2.2[i]? = some (TValue.tensor w) ∧
        (⟨SymId.wait,
          [waitArgOf ((lookupGrad st.gradToFuture gid).getD GradStatus.pending)],
          [TValue.tensor w]⟩ : BoundSymbol) ∈ (buildWaits st gs).2.1) ∧
    ((∀ gid, v ≠ TValue.tensor gid) →
      (buildWaits st gs).2.2[i]? = some TValue.noneV) := by
  induction gs generalizing st i with
  | nil => simp at hv
  | cons g rest ih =>
    cases i with
    | zero =>
      rw [List.getElem?_cons_zero] at hv
      injection hv with hv
      subst hv
      cases g with
      | tensor gid =>
        simp only [buildWaits]
        constructor
        · intro gid2 hgid
          injection hgid with he
          subst he
          refine ⟨st.fresh, ?_, List.mem_cons_self _ _⟩
          rw [List.getElem?_cons_zero]
        · intro hne
          exact absurd rfl (hne gid)
      | future j =>
        simp only [buildWaits]
        exact ⟨fun gid h => TValue.noConfusion h, fun _ => List.getElem?_cons_zero⟩
      | noneV =>
        simp only [buildWaits]
        exact ⟨fun gid h => TValue.noConfusion h, fun _ => List.getElem?_cons_zero⟩
      | boolTrue =>
        simp only [buildWaits]
        exact ⟨fun gid h => TValue.noConfusion h, fun _ => List.getElem?_cons_zero⟩
      | intConst n =>
        simp only [buildWaits]
        exact ⟨fun gid h => TValue.noConfusion h, fun _ => List.getElem?_cons_zero⟩
    | succ j =>
      rw [List.getElem?_cons_succ] at hv
      cases g with
      | tensor gid0 =>
        simp only [buildWaits]
        have hrec := ih ⟨st.fresh + 1, st.gradToFuture⟩ j hv
        constructor
        · intro gid hgid
          obtain ⟨w, hw1, hw2⟩ := hrec.1 gid hgid
          refine ⟨w, ?_, List.mem_cons_of_mem _ hw2⟩
          rw [List.getElem?_cons_succ]
          exact hw1
        · intro hne
          rw [List.getElem?_cons_succ]
          exact hrec.2 hne
      | future k =>
        simp only [buildWaits]
        have hrec := ih st j hv
        constructor
        · intro gid hgid
          obtain ⟨w, hw1, hw2⟩ := hrec.1 gid hgid
          refine ⟨w, ?_, hw2⟩
          rw [List.getElem?_cons_succ]
          exact hw1
        · intro hne
          rw [List.getElem?_cons_succ]
          exact hrec.2 hne
      | noneV =>
        simp only [buildWaits]
        have hrec := ih st j hv
        constructor
        · intro gid hgid
          obtain ⟨w, hw1, hw2⟩ := hrec.1 gid hgid
          refine ⟨w, ?_, hw2⟩
          rw [List.getElem?_cons_succ]
          exact hw1
        · intro hne
          rw [List.getElem?_cons_succ]
          exact hrec.2 hne
      | boolTrue =>
        simp only [buildWaits]
        have hrec := ih st j hv
        constructor
        · intro gid hgid
          obtain ⟨w, hw1, hw2⟩ := hrec.1 gid hgid
          refine ⟨w, ?_, hw2⟩
          rw [List.getElem?_cons_succ]
          exact hw1
        · intro hne
          rw [List.getElem?_cons_succ]
          exact hrec.2 hne
      | intConst n =>
        simp only [buildWaits]
        have hrec := ih st j hv
        constructor
        · intro gid hgid
          obtain ⟨w, hw1, hw2⟩ := hrec.1 gid hgid
          refine ⟨w, ?_, hw2⟩
          rw [List.getElem?_cons_succ]
          exact hw1
        · intro hne
          rw [List.getElem?_cons_succ]
          exact hrec.2 hne

theorem visitBsym_not_return (ws : Nat) (gradients : List TValue)
    (st : RewriteState) (b : BoundSymbol) (hb : b.sym ≠ SymId.RETURN) :
    visitBsym ws gradients st b =
      ((processGrads ws st (trackedOuts st.gradToFuture b.outs)).1,
       b :: (processGrads ws st (trackedOuts st.gradToFuture b.outs)).2) := by
  rw [visitBsym, if_neg hb]

theorem visitBsym_return (ws : Nat) (gradients : List TValue)
    (st : RewriteState) (b : BoundSymbol) (hb : b.sym = SymId.RETURN) :
    visitBsym ws gradients st b =
      ((buildWaits st gradients).1,
       (buildWaits st gradients).2.1 ++
         [⟨SymId.RETURN, (buildWaits st gradients).2.2, []⟩]) := by
  rw [visitBsym, if_pos hb]

theorem visitBsym_isSome (ws : Nat) (gradients : List TValue)
    (st : RewriteState) (b : BoundSymbol) (g : Nat)
    (h : (lookupGrad st.gradToFuture g).isSome) :
    (lookupGrad (visitBsym ws gradients st b).1.gradToFuture g).isSome := by
  by_cases hb : b.sym = SymId.RETURN
  · rw [visitBsym_return ws gradients st b hb]
    rw [buildWaits_map_const]
    exact h
  · rw [visitBsym_not_return ws gradients st b hb]
    exact processGrads_isSome _ _ _ _ h

theorem visitBsym_future_persists (ws : Nat) (gradients : List TValue)
    (st : RewriteState) (b : BoundSymbol) (g f : Nat)
    (h : lookupGrad st.gradToFuture g = some (GradStatus.futureOf f)) :
    ∃ q, lookupGrad (visitBsym ws gradients st b).1.gradToFuture g =
      some (GradStatus.futureOf q) := by
  by_cases hb : b.sym = SymId.RETURN
  · rw [visitBsym_return ws gradients st b hb]
    rw [buildWaits_map_const]
    exact ⟨f, h⟩
  · rw [visitBsym_not_return ws gradients st b hb]
    exact processGrads_future_persists _ _ _ _ _ h

theorem visitAll_isSome (ws : Nat) (gradients : List TValue)
    (body : List BoundSymbol) (st : RewriteState) (g : Nat)
    (h : (lookupGrad st.gradToFuture g).isSome) :
    (lookupGrad (visitAll ws gradients st body).1.gradToFuture g).isSome := by
  induction body generalizing st with
  | nil => exact h
  | cons b rest ih =>
    simp only [visitAll]
    exact ih _ (visitBsym_isSome ws gradients st b g h)

theorem visitAll_future_persists (ws : Nat) (gradients : List TValue)
    (body : List BoundSymbol) (st : RewriteState) (g f : Nat)
    (h : lookupGrad st.gradToFuture g = some (GradStatus.futureOf f)) :
    ∃ q, lookupGrad (visitAll ws gradients st body).1.gradToFuture g =
      some (GradStatus.futureOf q) := by
  induction body generalizing st f with
  | nil => exact ⟨f, h⟩
  | cons b rest ih =>
    simp only [visitAll]
    obtain ⟨q, hq⟩ := visitBsym_future_persists ws gradients st b g f h
    exact ih _ q hq

theorem visitAll_chain (ws : Nat) (gradients : List TValue)
    (body : List BoundSymbol) (st : RewriteState) (g f : Nat)
    (h : lookupGrad (visitAll ws gradients st body).1.gradToFuture g =
      some (GradStatus.futureOf f)) :
    (∃ p, (⟨SymId.trueDivide, [TValue.tensor g, TValue.intConst (ws : Int)],
        [TValue.tensor p]⟩ : BoundSymbol) ∈ (visitAll ws gradients st body).2 ∧
      (⟨SymId.allReduce, [TValue.tensor p], [TValue.future f]⟩ : BoundSymbol) ∈
        (visitAll ws gradients st body).2) ∨
    lookupGrad st.gradToFuture g = some (GradStatus.futureOf f) := by
  induction body generalizing st with
  | nil => exact Or.inr h
  | cons b rest ih =>
    simp only [visitAll] at h ⊢
    rcases ih _ h with ⟨p, h1, h2⟩ | hback
    · exact Or.inl ⟨p, List.mem_append_right _ h1, List.mem_append_right _ h2⟩
    · by_cases hb : b.sym = SymId.RETURN
      · rw [visitBsym_return ws gradients st b hb, buildWaits_map_const] at hback
        exact Or.inr hback
      · rw [visitBsym_not_return ws gradients st b hb] at hback
        rcases processGrads_chain ws st _ g f hback with ⟨p, h1, h2⟩ | hb2
        · refine Or.inl ⟨p, List.mem_append_left _ ?_, List.mem_append_left _ ?_⟩
          · rw [visitBsym_not_return ws gradients st b hb]
            exact List.mem_cons_of_mem _ h1
          · rw [visitBsym_not_return ws gradients st b hb]
            exact List.mem_cons_of_mem _ h2
        · exact Or.inr hb2

theorem visitAll_produced_future (ws : Nat) (gradients : List TValue)
    (body : List BoundSymbol) (st : RewriteState) (gid : Nat)
    (hnoret : ∀ b ∈ body, b.sym ≠ SymId.RETURN)
    (hs : (lookupGrad st.gradToFuture gid).isSome)
    (hprod : ∃ b ∈ body, TValue.tensor gid ∈ b.outs) :
    ∃ f, lookupGrad (visitAll ws gradients st body).1.gradToFuture gid =
      some (GradStatus.futureOf f) := by
  induction body generalizing st with
  | nil =>
    obtain ⟨b, hb, _⟩ := hprod
    cases hb
  | cons b rest ih =>
    simp only [visitAll]
    have hbne : b.sym ≠ SymId.RETURN := hnoret b (List.mem_cons_self _ _)
    obtain ⟨b0, hb0, hout⟩ := hprod
    rcases List.mem_cons.mp hb0 with rfl | hb0r
    · have hmem : gid ∈ trackedOuts st.gradToFuture b0.outs :=
        mem_trackedOuts _ _ _ hout hs
      obtain ⟨f, hf⟩ := processGrads_mem_future ws st _ gid hmem
      have hf2 : lookupGrad (visitBsym ws gradients st b0).1.gradToFuture gid =
          some (GradStatus.futureOf f) := by
        rw [visitBsym_not_return ws gradients st b0 hbne]
        exact hf
      exact visitAll_future_persists ws gradients rest _ gid f hf2
    · exact ih _ (fun b2 hb2 => hnoret b2 (List.mem_cons_of_mem _ hb2))
        (visitBsym_isSome ws gradients st b gid hs) ⟨b0, hb0r, hout⟩

theorem visitAll_append (ws : Nat) (gradients : List TValue)
    (l1 l2 : List BoundSymbol) (st : RewriteState) :
    visitAll ws gradients st (l1 ++ l2) =
      ((visitAll ws gradients (visitAll ws gradients st l1).1 l2).1,
       (visitAll ws gradients st l1).2 ++
         (visitAll ws gradients (visitAll ws gradients st l1).1 l2).2) := by
  induction l1 generalizing st with
  | nil => simp [visitAll]
  | cons b rest ih =>
    simp only [List.cons_append, visitAll, List.append_eq]
    rw [ih]
    simp [List.append_assoc]

/-! ### Claim theorems for the gradient-averaging rewrite -/

/-- C1 counterexample: a backward trace returning one gradient tensor and the
non-tensor value 7, rewritten with group size 4. The rewritten final return
holds the waited gradient and `None` — the non-tensor slot does not pass
through unchanged (7 became `None`). -/
theorem c1_counterexample :
    (insert_bsym_to_allreduce_grads 4
      ⟨[⟨SymId.other 0, [], [TValue.tensor 0]⟩,
        ⟨SymId.RETURN, [TValue.tensor 0, TValue.intConst 7], []⟩]⟩).bound_symbols.getLast? =
      some ⟨SymId.RETURN, [TValue.tensor 3, TValue.noneV], []⟩ ∧
    TValue.noneV ≠ TValue.intConst 7 := by decide

/-- C1 (amended): for every finalized backward trace whose final operation is
the return of `gs` and whose gradient tensors are each produced by some
earlier operation, and every group size, the rewrite replaces the final
return with one that, at each position, returns the wait of the future of an
asynchronous all-reduce of the gradient pre-divided by the group size —
keeping each gradient's original return position — while every non-tensor
return slot is replaced by the absent-gradient marker `None` (so `None`
slots pass through unchanged). -/
theorem c1_allreduce_rewrite_amended (world_size : Nat) (t : TraceCtx)
    (body : List BoundSymbol) (gs : List TValue)
    (hsplit : t.bound_symbols = body ++ [⟨SymId.RETURN, gs, []⟩])
    (hnoret : ∀ b ∈ body, b.sym ≠ SymId.RETURN)
    (hprod : ∀ gid, TValue.tensor gid ∈ gs →
      ∃ b ∈ body, TValue.tensor gid ∈ b.outs) :
    ∃ rets : List TValue,
      (insert_bsym_to_allreduce_grads world_size t).bound_symbols.getLast? =
        some ⟨SymId.RETURN, rets, []⟩ ∧
      rets.length = gs.length ∧
      ∀ i : Nat, ∀ v : TValue, gs[i]? = some v →
        ((∀ gid, v ≠ TValue.tensor gid) → rets[i]? = some TValue.noneV) ∧
        (∀ gid, v = TValue.tensor gid →
          ∃ w f p, rets[i]? = some (TValue.tensor w) ∧
            (⟨SymId.wait, [TValue.future f], [TValue.tensor w]⟩ : BoundSymbol) ∈
              (insert_bsym_to_allreduce_grads world_size t).bound_symbols ∧
            (⟨SymId.allReduce, [TValue.tensor p], [TValue.future f]⟩ : BoundSymbol) ∈
              (insert_bsym_to_allreduce_grads world_size t).bound_symbols ∧
            (⟨SymId.trueDivide,
              [TValue.tensor gid, TValue.intConst (world_size : Int)],
              [TValue.tensor p]⟩ : BoundSymbol) ∈
              (insert_bsym_to_allreduce_grads world_size t).bound_symbols) := by
  have houtput : t.output = gs := by
    unfold TraceCtx.output
    rw [hsplit, List.getLast?_concat]
    simp
  have hins : (insert_bsym_to_allreduce_grads world_size t).bound_symbols =
      (visitAll world_size gs ⟨traceMaxId t + 1, initGradMap gs⟩
        t.bound_symbols).2 := by
    show (visitAll world_size t.output
      ⟨traceMaxId t + 1, initGradMap t.output⟩ t.bound_symbols).2 = _
    rw [houtput]
  have hretv : (visitAll world_size gs
      (visitAll world_size gs ⟨traceMaxId t + 1, initGradMap gs⟩ body).1
      [(⟨SymId.RETURN, gs, []⟩ : BoundSymbol)]).2 =
      (buildWaits (visitAll world_size gs ⟨traceMaxId t + 1, initGradMap gs⟩
        body).1 gs).2.1 ++
      [⟨SymId.RETURN,
        (buildWaits (visitAll world_size gs ⟨traceMaxId t + 1, initGradMap gs⟩
          body).1 gs).2.2, []⟩] := by
    simp only [visitAll]
    rw [visitBsym_return world_size gs _ _ rfl]
    simp
  have htotal : (insert_bsym_to_allreduce_grads world_size t).bound_symbols =
      (visitAll world_size gs ⟨traceMaxId t + 1, initGradMap gs⟩ body).2 ++
      ((buildWaits (visitAll world_size gs ⟨traceMaxId t + 1, initGradMap gs⟩
          body).1 gs).2.1 ++
       [⟨SymId.RETURN,
         (buildWaits (visitAll world_size gs ⟨traceMaxId t + 1, initGradMap gs⟩
           body).1 gs).2.2, []⟩]) := by
    rw [hins, hsplit, visitAll_append, hretv]
  refine ⟨(buildWaits (visitAll world_size gs ⟨traceMaxId t + 1, initGradMap gs⟩
    body).1 gs).2.2, ?_, ?_, ?_⟩
  · rw [htotal, ← List.append_assoc, List.getLast?_concat]
  · exact buildWaits_length gs _
  · intro i v hv
    constructor
    · intro hne
      exact (buildWaits_spec gs _ i v hv).2 hne
    · intro gid hgid
      have hmemgs : TValue.tensor gid ∈ gs := by
        rw [← hgid]
        exact List.getElem?_mem hv
      have hinit : lookupGrad (initGradMap gs) gid =
          some GradStatus.pending := by
        rw [lookupGrad_initGradMap, if_pos hmemgs]
      have hs0 : (lookupGrad
          (⟨traceMaxId t + 1, initGradMap gs⟩ : RewriteState).gradToFuture
          gid).isSome := by
        show (lookupGrad (initGradMap gs) gid).isSome
        rw [hinit]
        rfl
      obtain ⟨f, hf⟩ := visitAll_produced_future world_size gs body
        ⟨traceMaxId t + 1, initGradMap gs⟩ gid hnoret hs0 (hprod gid hmemgs)
      obtain ⟨w, hw1, hw2⟩ := (buildWaits_spec gs
        (visitAll world_size gs ⟨traceMaxId t + 1, initGradMap gs⟩ body).1
        i v hv).1 gid hgid
      have harg : waitArgOf ((lookupGrad
          (visitAll world_size gs ⟨traceMaxId t + 1, initGradMap gs⟩
            body).1.gradToFuture gid).getD GradStatus.pending) =
          TValue.future f := by
        rw [hf]
        rfl
      rw [harg] at hw2
      rcases visitAll_chain world_size gs body
        ⟨traceMaxId t + 1, initGradMap gs⟩ gid f hf with ⟨p, hc1, hc2⟩ | hcontra
      · refine ⟨w, f, p, hw1, ?_, ?_, ?_⟩
        · rw [htotal]
          exact List.mem_append_right _ (List.mem_append_left _ hw2)
        · rw [htotal]
          exact List.mem_append_left _ hc2
        · rw [htotal]
          exact List.mem_append_left _ hc1
      · rw [show (⟨traceMaxId t + 1, initGradMap gs⟩ :
            RewriteState).gradToFuture = initGradMap gs from rfl, hinit] at hcontra
        injection hcontra with hx
        exact GradStatus.noConfusion hx

/-- Witness for C1 (amended): the spec's concrete scenario — a backward trace
returning two gradient tensors and one non-tensor value, rewritten with a
group of size 4. -/
theorem c1_witness :
    ∃ rets : List TValue,
      (insert_bsym_to_allreduce_grads 4
        ⟨[⟨SymId.other 0, [], [TValue.tensor 0]⟩,
          ⟨SymId.other 1, [], [TValue.tensor 1]⟩,
          ⟨SymId.RETURN, [TValue.tensor 0, TValue.tensor 1, TValue.noneV],
            []⟩]⟩).bound_symbols.getLast? =
        some ⟨SymId.RETURN, rets, []⟩ ∧
      rets.length = [TValue.tensor 0, TValue.tensor 1, TValue.noneV].length ∧
      ∀ i : Nat, ∀ v : TValue,
        [TValue.tensor 0, TValue.tensor 1, TValue.noneV][i]? = some v →
        ((∀ gid, v ≠ TValue.tensor gid) → rets[i]? = some TValue.noneV) ∧
        (∀ gid, v = TValue.tensor gid →
          ∃ w f p, rets[i]? = some (TValue.tensor w) ∧
            (⟨SymId.wait, [TValue.future f], [TValue.tensor w]⟩ : BoundSymbol) ∈
              (insert_bsym_to_allreduce_grads 4
                ⟨[⟨SymId.other 0, [], [TValue.tensor 0]⟩,
                  ⟨SymId.other 1, [], [TValue.tensor 1]⟩,
                  ⟨SymId.RETURN, [TValue.tensor 0, TValue.tensor 1, TValue.noneV],
                    []⟩]⟩).bound_symbols ∧
            (⟨SymId.allReduce, [TValue.tensor p], [TValue.future f]⟩ : BoundSymbol) ∈
              (insert_bsym_to_allreduce_grads 4
                ⟨[⟨SymId.other 0, [], [TValue.tensor 0]⟩,
                  ⟨SymId.other 1, [], [TValue.tensor 1]⟩,
                  ⟨SymId.RETURN, [TValue.tensor 0, TValue.tensor 1, TValue.noneV],
                    []⟩]⟩).bound_symbols ∧
            (⟨SymId.trueDivide, [TValue.tensor gid, TValue.intConst ((4 : Nat) : Int)],
              [TValue.tensor p]⟩ : BoundSymbol) ∈
              (insert_bsym_to_allreduce_grads 4
                ⟨[⟨SymId.other 0, [], [TValue.tensor 0]⟩,
                  ⟨SymId.other 1, [], [TValue.tensor 1]⟩,
                  ⟨SymId.RETURN, [TValue.tensor 0, TValue.tensor 1, TValue.noneV],
                    []⟩]⟩).bound_symbols) :=
  c1_allreduce_rewrite_amended 4
    ⟨[⟨SymId.other 0, [], [TValue.tensor 0]⟩,
      ⟨SymId.other 1, [], [TValue.tensor 1]⟩,
      ⟨SymId.RETURN, [TValue.tensor 0, TValue.tensor 1, TValue.noneV], []⟩]⟩
    [⟨SymId.other 0, [], [TValue.tensor 0]⟩,
     ⟨SymId.other 1, [], [TValue.tensor 1]⟩]
    [TValue.tensor 0, TValue.tensor 1, TValue.noneV]
    rfl
    (by decide)
    (by
      intro gid hg
      rcases List.mem_cons.mp hg with h1 | h1
      · injection h1 with he
        subst he
        exact ⟨⟨SymId.other 0, [], [TValue.tensor 0]⟩, by decide,
          List.mem_singleton.mpr rfl⟩
      · rcases List.mem_cons.mp h1 with h2 | h2
        · injection h2 with he
          subst he
          exact ⟨⟨SymId.other 1, [], [TValue.tensor 1]⟩, by decide,
            List.mem_singleton.mpr rfl⟩
        · simp at h2)

end Spec2Proof
